import Mathlib

/-!
Verification of the gin-contrib/logger request-logging middleware.

The Go sources are shallowly embedded: the middleware's pure decision logic
(suppression, severity selection, message assembly, event emission) is
translated into executable Lean definitions; machine integers become `Int`,
Go byte strings become `String` (or `List Char` where byte-level slicing
matters), Go maps become association lists, Go `nil`-able function fields
become `Option` of a function type, and panics become `Except.error`.

Two revisions of the middleware are modelled, matching the repository, which
keeps historical revisions of the same file:
- `GinLogger`: the current revision (logger.go with `getLogEvent`,
  `shouldSkipLogging`, per-status-code levels, configurable message, `Get`);
- `GinLogger.BodyCapture`: the response-body-capture revision (the revision
  with `bodyLogWriter`, `logResponseBody`, `logErrorResponseBody`,
  `maxResponseBodyLen` and the corresponding options).
-/

namespace GinLogger

/-- zerolog severity level. In Go it is an `int8`; modelled as `Int`. -/
abbrev Level := Int

/-- zerolog.TraceLevel -/
def TraceLevel : Level := -1

/-- zerolog.DebugLevel -/
def DebugLevel : Level := 0

/-- zerolog.InfoLevel -/
def InfoLevel : Level := 1

/-- zerolog.WarnLevel -/
def WarnLevel : Level := 2

/-- zerolog.ErrorLevel -/
def ErrorLevel : Level := 3

/-- zerolog.FatalLevel -/
def FatalLevel : Level := 4

/-- zerolog.PanicLevel -/
def PanicLevel : Level := 5

/-- zerolog.NoLevel -/
def NoLevel : Level := 6

/-- zerolog.Disabled -/
def Disabled : Level := 7

/-- Go map lookup, modelled over an association list (first binding wins,
matching a map built without duplicate keys). -/
def goMapLookup {α β : Type} [DecidableEq α] : List (α × β) → α → Option β
  | [], _ => none
  | (k, v) :: rest, key => if k = key then some v else goMapLookup rest key

/-- A zerolog.Logger value as stored in the gin context key/value store;
its internal field state is irrelevant to the claims, so it is abstracted
to a tag. -/
structure ZLogger where
  tag : Nat
deriving DecidableEq, Repr

/-- The view of a `*gin.Context` that the middleware reads: request data,
the response writer's status and size after the handler ran, the accumulated
`c.Errors` (one string per recorded error), and the `c.Keys` store. -/
structure GinContext where
  method : String
  urlPath : String
  rawQuery : String
  clientIP : String
  userAgent : String
  errors : List String
  status : Int
  bodySize : Int
  keys : List (String × ZLogger)
deriving DecidableEq, Repr

/-- The middleware configuration (`config` in logger.go, current revision).
The `logger` (Fn) and `context` (EventFn) hooks only transform the logger and
event values and are orthogonal to the modelled claims, as is the output
writer; they are omitted. -/
structure Config where
  utc : Bool
  skipPath : List String
  skipPathRegexps : List (String → Bool)
  skip : Option (GinContext → Bool)
  defaultLevel : Level
  clientErrorLevel : Level
  serverErrorLevel : Level
  pathLevels : List (String × Level)
  message : String
  specificLevelByStatusCode : List (Int × Level)

/-- The configuration built by `SetLogger` before options are applied. -/
def defaultConfig : Config where
  utc := false
  skipPath := []
  skipPathRegexps := []
  skip := none
  defaultLevel := InfoLevel
  clientErrorLevel := WarnLevel
  serverErrorLevel := ErrorLevel
  pathLevels := []
  message := "Request"
  specificLevelByStatusCode := []

/-- The context key under which the per-request logger is stored. -/
def loggerKey : String := "_gin-contrib/logger_"

/-- `cfg.skip != nil && cfg.skip(c)`. -/
def skipActive (cfg : Config) (c : GinContext) : Bool :=
  match cfg.skip with
  | some s => s c
  | none => false

/-- The `for _, reg := range cfg.skipPathRegexps` loop of
`shouldSkipLogging`: true as soon as one regexp matches the path. -/
def matchAnyRegexp : List (String → Bool) → String → Bool
  | [], _ => false
  | reg :: rest, path => if reg path then true else matchAnyRegexp rest path

/-- `shouldSkipLogging` from logger.go. The `skip` set built by `SetLogger`
is modelled by the list it is built from (membership coincides). -/
def shouldSkipLogging (path : String) (skip : List String) (cfg : Config)
    (c : GinContext) : Bool :=
  if skip.contains path || skipActive cfg c then true
  else matchAnyRegexp cfg.skipPathRegexps path

/-- `getLogEvent` from logger.go, reduced to the severity it selects (the
event construction itself carries no further decision). -/
def getLogEvent (cfg : Config) (c : GinContext) (path : String) : Level :=
  match goMapLookup cfg.specificLevelByStatusCode c.status with
  | some specificLogLevel => specificLogLevel
  | none =>
    if 400 ≤ c.status ∧ c.status < 500 then cfg.clientErrorLevel
    else if 500 ≤ c.status then cfg.serverErrorLevel
    else
      match goMapLookup cfg.pathLevels path with
      | some level => level
      | none => cfg.defaultLevel

/-- `zero-pad to two digits`, as produced by the %02d format verb of gin. -/
def pad2 (n : Nat) : String :=
  if n < 10 then "0" ++ toString n else toString n

/-- Helper for `ginErrorsString`, numbering errors from a given index. -/
def ginErrorsStringAux : Nat → List String → String
  | _, [] => ""
  | i, e :: es =>
    "Error #" ++ pad2 i ++ ": " ++ e ++ "\n" ++ ginErrorsStringAux (i + 1) es

/-- `c.Errors.String()` of the gin framework (external collaborator): each
recorded error rendered on its own numbered line; the optional Meta part is
not modelled since the middleware records none. -/
def ginErrorsString (errs : List String) : String :=
  ginErrorsStringAux 1 errs

/-- The `msg` computed by the middleware closure:
`msg := cfg.message; if len(c.Errors) > 0 { msg += " with errors: " + c.Errors.String() }`. -/
def requestMsg (cfg : Config) (c : GinContext) : String :=
  if c.errors.length > 0 then
    cfg.message ++ (" with errors: " ++ ginErrorsString c.errors)
  else cfg.message

/-- The computed path: `path := c.Request.URL.Path; if raw != "" { path += "?" + raw }`. -/
def computedPath (c : GinContext) : String :=
  if c.rawQuery ≠ "" then c.urlPath ++ "?" ++ c.rawQuery else c.urlPath

/-- One structured log event as emitted by `evt.Int("status", ...) ... .Msg(msg)`;
latency and timestamp are wall-clock data and are not modelled. -/
structure LogEvent where
  level : Level
  status : Int
  method : String
  path : String
  ip : String
  userAgent : String
  bodySize : Int
  msg : String
deriving DecidableEq, Repr

/-- The observable effect of one invocation of the handler returned by
`SetLogger` on a completed request: the list of events written to the
configured sink (each `Msg` call is one write). -/
def setLoggerRun (cfg : Config) (c : GinContext) : List LogEvent :=
  let path := computedPath c
  let track := !shouldSkipLogging path cfg.skipPath cfg c
  if track then
    [{ level := getLogEvent cfg c path
       status := c.status
       method := c.method
       path := path
       ip := c.clientIP
       userAgent := c.userAgent
       bodySize := c.bodySize
       msg := requestMsg cfg c }]
  else []

/-- `c.MustGet(key)` of gin (external collaborator): the stored value, or a
panic — modelled as `Except.error` carrying the panic message — when the key
is absent. -/
def ginMustGet (c : GinContext) (key : String) : Except String ZLogger :=
  match goMapLookup c.keys key with
  | some v => Except.ok v
  | none => Except.error ("Key " ++ key ++ " does not exist")

/-- `Get` from logger.go: `c.MustGet(loggerKey).(zerolog.Logger)`. -/
def Get (c : GinContext) : Except String ZLogger :=
  ginMustGet c loggerKey

/-- All-digit check and decimal value, the digit part of `strconv.Atoi`. -/
def parseDigits (cs : List Char) : Option Nat :=
  if cs = [] then none
  else if cs.all Char.isDigit then
    some (cs.foldl (fun acc ch => acc * 10 + (ch.toNat - 48)) 0)
  else none

/-- `strconv.Atoi` (external collaborator): optional sign followed by at
least one decimal digit. -/
def parseIntString (s : String) : Option Int :=
  match s.toList with
  | [] => none
  | c :: rest =>
    if c = '-' then (parseDigits rest).map (fun n => -(n : Int))
    else if c = '+' then (parseDigits rest).map (fun n => (n : Int))
    else (parseDigits (c :: rest)).map (fun n => (n : Int))

/-- The severity names recognised by the zerolog level parser and their
levels, as pinned by TestLoggerParseLevel. -/
def levelNameTable : List (String × Level) :=
  [("trace", TraceLevel), ("debug", DebugLevel), ("info", InfoLevel),
   ("warn", WarnLevel), ("error", ErrorLevel), ("fatal", FatalLevel),
   ("panic", PanicLevel), ("disabled", Disabled), ("", NoLevel)]

/-- Modelled from the spec: `zerolog.ParseLevel`, the external level parser
the repository delegates to, is absent from src; its behaviour is pinned by
the repository's TestLoggerParseLevel table: each recognised level name maps
to its level, an integer numeral string maps to the numeric level (rows
"-1", "-2", "-3" of the table), and anything else yields a descriptive
error. -/
def zerologParseLevel (levelStr : String) : Except String Level :=
  match goMapLookup levelNameTable levelStr with
  | some l => Except.ok l
  | none =>
    match parseIntString levelStr with
    | some i => Except.ok i
    | none =>
      Except.error ("Unknown Level String: " ++ levelStr ++ ", defaulting to NoLevel")

/-- `ParseLevel` from logger.go: `return zerolog.ParseLevel(levelStr)`. -/
def ParseLevel (levelStr : String) : Except String Level :=
  zerologParseLevel levelStr

namespace BodyCapture

/-- The `config` of the response-body-capture revision. As in the current
revision, the `logger` hook and the output writer are omitted; `utc`,
`skipPath` and `skipPathRegexp` play the same roles as before. -/
structure Config where
  utc : Bool
  skipPath : List String
  skipPathRegexp : Option (String → Bool)
  defaultLevel : Level
  clientErrorLevel : Level
  serverErrorLevel : Level
  logErrorResponseBody : Bool
  logResponseBody : Bool
  maxResponseBodyLen : Int

/-- The configuration built by this revision's `SetLogger` before options
are applied. -/
def defaultConfig : Config where
  utc := false
  skipPath := []
  skipPathRegexp := none
  defaultLevel := InfoLevel
  clientErrorLevel := WarnLevel
  serverErrorLevel := ErrorLevel
  logErrorResponseBody := false
  logResponseBody := false
  maxResponseBodyLen := 50

/-- The `Option` interface of options.go: a configuration transformer. -/
abbrev Opt := Config → Config

/-- The `for _, o := range opts { o.apply(cfg) }` loop of `SetLogger`. -/
def applyOptions (opts : List Opt) (cfg : Config) : Config :=
  opts.foldl (fun c o => o c) cfg

/-- The configuration `SetLogger(opts...)` ends up with. -/
def setLoggerConfig (opts : List Opt) : Config :=
  applyOptions opts defaultConfig

/-- `WithLogErrorResponseBody` from options.go. -/
def WithLogErrorResponseBody (logErrorResponseBody : Bool) : Opt :=
  fun c => { c with logErrorResponseBody := logErrorResponseBody }

/-- `WithLogResponseBody` from options.go. -/
def WithLogResponseBody (logResponseBody : Bool) : Opt :=
  fun c => { c with logResponseBody := logResponseBody }

/-- `WithMaxResponseBodyLen` from options.go: only positive values are
stored. -/
def WithMaxResponseBodyLen (maxResponseBodyLen : Int) : Opt :=
  fun c =>
    if maxResponseBodyLen > 0 then
      { c with maxResponseBodyLen := maxResponseBodyLen }
    else c

/-- Whether `SetLogger` installs the `bodyLogWriter` decorator:
`if cfg.logErrorResponseBody || cfg.logResponseBody`. -/
def bodyWriterInstalled (cfg : Config) : Bool :=
  cfg.logErrorResponseBody || cfg.logResponseBody

/-- `withResponse := (cfg.logErrorResponseBody && statusCode >= 400) || (cfg.logResponseBody && statusCode < 400)`. -/
def withResponse (cfg : Config) (statusCode : Int) : Bool :=
  (cfg.logErrorResponseBody && decide (400 ≤ statusCode)) ||
    (cfg.logResponseBody && decide (statusCode < 400))

/-- `strings.TrimPrefix(response, "\"")`: one leading double quote removed
when present. Go byte strings are modelled as `List Char` here because the
truncation below slices at byte granularity. -/
def trimPrefixQuote : List Char → List Char
  | [] => []
  | ch :: rest => if ch = '"' then rest else ch :: rest

/-- `strings.TrimSuffix(response, "\"")`: one trailing double quote removed
when present. -/
def trimSuffixQuote (l : List Char) : List Char :=
  if l.getLast? = some '"' then l.dropLast else l

/-- The `"..."` marker appended to truncated bodies. -/
def ellipsisMarker : List Char := ['.', '.', '.']

/-- The response text attached to the event, from the body of `SetLogger`:
`response = blw.body.String(); response = strings.TrimPrefix(response, "\"");
response = strings.TrimSuffix(response, "\"");
if len(response) > cfg.maxResponseBodyLen { response = response[:cfg.maxResponseBodyLen] + "..." }`. -/
def responseFieldText (cfg : Config) (captured : List Char) : List Char :=
  let response := captured
  let response := trimPrefixQuote response
  let response := trimSuffixQuote response
  if cfg.maxResponseBodyLen < (response.length : Int) then
    response.take cfg.maxResponseBodyLen.toNat ++ ellipsisMarker
  else response

/-- The optional `response` field of the emitted event: attached exactly
when `withResponse` holds (`if withResponse { ctx = ...Str("response", response) }`;
the captured buffer exists whenever `withResponse` is true because one of
the two toggles must then be set). -/
def responseField (cfg : Config) (statusCode : Int) (captured : List Char) :
    Option (List Char) :=
  if withResponse cfg statusCode then
    some (responseFieldText cfg captured)
  else none

/-- The view of the request this revision's event assembly reads. -/
structure BCContext where
  method : String
  urlPath : String
  clientIP : String
  userAgent : String
  status : Int
  capturedBody : List Char
deriving DecidableEq, Repr

/-- The fields of the emitted event, in attachment order
(`Int("status", ...).Str("method", ...).Str("path", ...)`, then the optional
`response`, then `ip` and `user_agent`; latency and timestamp are wall-clock
data and are not modelled). -/
def requestEventFields (cfg : Config) (c : BCContext) : List (String × String) :=
  [("status", toString c.status), ("method", c.method), ("path", c.urlPath)] ++
    (if withResponse cfg c.status then
      [("response", String.mk (responseFieldText cfg c.capturedBody))]
    else []) ++
    [("ip", c.clientIP), ("user_agent", c.userAgent)]

end BodyCapture

/-! ## Concrete sample inputs used by the witnesses -/

/-- A sample completed request: GET /health, no query, no errors, status 200,
nothing stored in the context. -/
def sampleCtx : GinContext where
  method := "GET"
  urlPath := "/health"
  rawQuery := ""
  clientIP := "192.0.2.1"
  userAgent := "curl/8.0"
  errors := []
  status := 200
  bodySize := 2
  keys := []

/-- The spec's example configuration: per-path override "/health" at debug. -/
def cfgHealth : Config :=
  { defaultConfig with pathLevels := [("/health", DebugLevel)] }

/-- A configuration with a per-status-code override 404 at fatal. -/
def cfgFatal404 : Config :=
  { defaultConfig with specificLevelByStatusCode := [(404, FatalLevel)] }

/-- A sample context with a logger attached under the middleware's key. -/
def attachedCtx : GinContext :=
  { sampleCtx with keys := [(loggerKey, ⟨7⟩)] }

/-! ## Theorems -/

/-- C1: for every completed, non-suppressed request, the severity of the
emitted event is selected by the first matching rule in this fixed order:
(1) exact per-status-code override, regardless of status range; (2) client
error tier for status in [400,500); (3) server-error tier for status >= 500;
(4) exact per-path override, hence only when status < 400; (5) otherwise the
default tier; and with an unmodified configuration the three tiers are info,
warn and error. -/
theorem getLogEvent_precedence :
    ∀ (cfg : Config) (c : GinContext) (path : String),
      (∀ l, goMapLookup cfg.specificLevelByStatusCode c.status = some l →
        getLogEvent cfg c path = l) ∧
      (goMapLookup cfg.specificLevelByStatusCode c.status = none →
        400 ≤ c.status → c.status < 500 →
        getLogEvent cfg c path = cfg.clientErrorLevel) ∧
      (goMapLookup cfg.specificLevelByStatusCode c.status = none →
        500 ≤ c.status →
        getLogEvent cfg c path = cfg.serverErrorLevel) ∧
      (∀ l, goMapLookup cfg.specificLevelByStatusCode c.status = none →
        c.status < 400 → goMapLookup cfg.pathLevels path = some l →
        getLogEvent cfg c path = l) ∧
      (goMapLookup cfg.specificLevelByStatusCode c.status = none →
        c.status < 400 → goMapLookup cfg.pathLevels path = none →
        getLogEvent cfg c path = cfg.defaultLevel) ∧
      (defaultConfig.defaultLevel = InfoLevel ∧
        defaultConfig.clientErrorLevel = WarnLevel ∧
        defaultConfig.serverErrorLevel = ErrorLevel) := by
  intro cfg c path
  refine ⟨?_, ?_, ?_, ?_, ?_, rfl, rfl, rfl⟩
  · intro l h
    simp [getLogEvent, h]
  · intro h h1 h2
    simp only [getLogEvent, h]
    rw [if_pos ⟨h1, h2⟩]
  · intro h h1
    simp only [getLogEvent, h]
    rw [if_neg (by omega), if_pos (by omega)]
  · intro l h h1 h2
    simp only [getLogEvent, h]
    rw [if_neg (by omega), if_neg (by omega), h2]
  · intro h h1 h2
    simp only [getLogEvent, h]
    rw [if_neg (by omega), if_neg (by omega), h2]

/-- Witness for C1: one concrete request per precedence rule, including the
spec's example (a /health override at debug applies at 200 but is dominated
by the server-error tier at 500, and a 404-to-fatal status override applies
regardless of the client-error range). -/
theorem getLogEvent_precedence_witness :
    getLogEvent cfgFatal404 { sampleCtx with status := 404 } "/x" = FatalLevel ∧
    getLogEvent cfgHealth { sampleCtx with status := 404 } "/health" = WarnLevel ∧
    getLogEvent cfgHealth { sampleCtx with status := 500 } "/health" = ErrorLevel ∧
    getLogEvent cfgHealth sampleCtx "/health" = DebugLevel ∧
    getLogEvent cfgHealth sampleCtx "/other" = InfoLevel :=
  ⟨(getLogEvent_precedence cfgFatal404 { sampleCtx with status := 404 } "/x").1
      FatalLevel (by decide),
   (getLogEvent_precedence cfgHealth { sampleCtx with status := 404 } "/health").2.1
      (by decide) (by decide) (by decide),
   (getLogEvent_precedence cfgHealth { sampleCtx with status := 500 } "/health").2.2.1
      (by decide) (by decide),
   (getLogEvent_precedence cfgHealth sampleCtx "/health").2.2.2.1
      DebugLevel (by decide) (by decide) (by decide),
   (getLogEvent_precedence cfgHealth sampleCtx "/other").2.2.2.2.1
      (by decide) (by decide) (by decide)⟩

/-- C2: a log event is emitted iff none of the three suppression mechanisms
fires (computed path in the skip-path set, skip predicate, any suppression
pattern matching the computed path), and the suppression decision equals the
pure OR of the three predicates, in any order. -/
theorem suppression_pure_or :
    ∀ (cfg : Config) (c : GinContext),
      (shouldSkipLogging (computedPath c) cfg.skipPath cfg c =
        (cfg.skipPath.contains (computedPath c) || skipActive cfg c ||
          matchAnyRegexp cfg.skipPathRegexps (computedPath c))) ∧
      (shouldSkipLogging (computedPath c) cfg.skipPath cfg c =
        (matchAnyRegexp cfg.skipPathRegexps (computedPath c) || skipActive cfg c ||
          cfg.skipPath.contains (computedPath c))) ∧
      (setLoggerRun cfg c ≠ [] ↔
        (cfg.skipPath.contains (computedPath c) = false ∧
          skipActive cfg c = false ∧
          matchAnyRegexp cfg.skipPathRegexps (computedPath c) = false)) := by
  intro cfg c
  cases ha : cfg.skipPath.contains (computedPath c) <;>
    cases hb : skipActive cfg c <;>
      cases hc : matchAnyRegexp cfg.skipPathRegexps (computedPath c) <;>
        simp [shouldSkipLogging, setLoggerRun, ha, hb, hc] <;>
          simpa using ha

/-- C3: each invocation of the middleware writes exactly one event to the
sink when the request is not suppressed, and zero events when it is. -/
theorem one_event_per_request :
    ∀ (cfg : Config) (c : GinContext),
      (setLoggerRun cfg c).length =
        if shouldSkipLogging (computedPath c) cfg.skipPath cfg c then 0 else 1 := by
  intro cfg c
  cases h : shouldSkipLogging (computedPath c) cfg.skipPath cfg c <;>
    simp [setLoggerRun, h]

/-- C4: the message of every emitted event is the configured message
(default "Request") when no request-level errors were recorded, and the
configured message followed by exactly one error-summary suffix rendering
the whole error list when at least one was recorded, however many
error-recording calls the handler chain ran. -/
theorem message_error_suffix :
    ∀ (cfg : Config) (c : GinContext),
      (c.errors = [] → requestMsg cfg c = cfg.message) ∧
      (c.errors ≠ [] →
        requestMsg cfg c =
          cfg.message ++ " with errors: " ++ ginErrorsString c.errors) ∧
      (∀ e ∈ setLoggerRun cfg c, e.msg = requestMsg cfg c) ∧
      defaultConfig.message = "Request" := by
  intro cfg c
  refine ⟨?_, ?_, ?_, rfl⟩
  · intro h
    simp [requestMsg, h]
  · intro h
    have hl : c.errors.length > 0 := List.length_pos.mpr h
    simp only [requestMsg, hl, if_pos]
    rw [String.append_assoc]
  · intro e he
    cases h : shouldSkipLogging (computedPath c) cfg.skipPath cfg c <;>
      simp [setLoggerRun, h] at he
    rw [he]

/-- Witness for C4: a request with the default configuration and two
recorded errors gets the message "Request" plus one suffix rendering both;
the same request with no errors gets the bare "Request". -/
theorem message_error_suffix_witness :
    requestMsg defaultConfig { sampleCtx with errors := ["boom", "bang"] } =
      "Request" ++ " with errors: " ++ ginErrorsString ["boom", "bang"] ∧
    requestMsg defaultConfig sampleCtx = "Request" :=
  ⟨(message_error_suffix defaultConfig
      { sampleCtx with errors := ["boom", "bang"] }).2.1 (by decide),
   (message_error_suffix defaultConfig sampleCtx).1 rfl⟩

/-- C6: the per-request accessor `Get` fails loudly (the modelled panic of
`MustGet`) when no logger was attached under the middleware's key, never
returning a zero-value logger silently, and returns the attached logger when
one was attached. -/
theorem get_fails_loudly :
    ∀ (c : GinContext),
      (goMapLookup c.keys loggerKey = none →
        Get c = Except.error ("Key " ++ loggerKey ++ " does not exist")) ∧
      (goMapLookup c.keys loggerKey = none → ∀ l, Get c ≠ Except.ok l) ∧
      (∀ l, goMapLookup c.keys loggerKey = some l → Get c = Except.ok l) := by
  intro c
  refine ⟨?_, ?_, ?_⟩
  · intro h
    simp [Get, ginMustGet, h]
  · intro h l
    simp [Get, ginMustGet, h]
  · intro l h
    simp [Get, ginMustGet, h]

/-- Witness for C6: on a context with an empty store `Get` returns the
panic message and no logger; on a context holding a logger under the key it
returns that logger. -/
theorem get_fails_loudly_witness :
    Get sampleCtx = Except.error ("Key " ++ loggerKey ++ " does not exist") ∧
    Get sampleCtx ≠ Except.ok ⟨7⟩ ∧
    Get attachedCtx = Except.ok ⟨7⟩ :=
  ⟨(get_fails_loudly sampleCtx).1 rfl,
   (get_fails_loudly sampleCtx).2.1 rfl ⟨7⟩,
   (get_fails_loudly attachedCtx).2.2 ⟨7⟩ (by decide)⟩

/-- C7 counterexample: "-2" is not a recognised severity-level name, yet
`ParseLevel` returns level -2 with no error (as the repository's own
TestLoggerParseLevel table requires), contradicting the claim that every
unrecognised name yields an error. -/
theorem parse_level_counterexample :
    goMapLookup levelNameTable "-2" = none ∧
    ParseLevel "-2" = Except.ok (-2) :=
  ⟨by decide, rfl⟩

/-- C7 amended: every recognised severity-level name parses to its level
with no error; an integer numeral string parses to the numeric level with no
error; every other string yields a descriptive error rather than a silently
returned default. -/
theorem parse_level_amended :
    (∀ (name : String) (l : Level),
      goMapLookup levelNameTable name = some l → ParseLevel name = Except.ok l) ∧
    (∀ (s : String) (i : Int),
      goMapLookup levelNameTable s = none → parseIntString s = some i →
      ParseLevel s = Except.ok i) ∧
    (∀ s : String,
      goMapLookup levelNameTable s = none → parseIntString s = none →
      ParseLevel s =
        Except.error ("Unknown Level String: " ++ s ++ ", defaulting to NoLevel")) := by
  refine ⟨?_, ?_, ?_⟩
  · intro name l h
    simp [ParseLevel, zerologParseLevel, h]
  · intro s i h1 h2
    simp [ParseLevel, zerologParseLevel, h1, h2]
  · intro s h1 h2
    simp [ParseLevel, zerologParseLevel, h1, h2]

/-- Witness for C7 amended: "warn" parses to the warn level, "-3" parses to
level -3, and "bogus" yields the descriptive error. -/
theorem parse_level_amended_witness :
    ParseLevel "warn" = Except.ok WarnLevel ∧
    ParseLevel "-3" = Except.ok (-3) ∧
    ParseLevel "bogus" =
      Except.error ("Unknown Level String: " ++ "bogus" ++ ", defaulting to NoLevel") :=
  ⟨parse_level_amended.1 "warn" WarnLevel (by decide),
   parse_level_amended.2.1 "-3" (-3) (by decide) (by decide),
   parse_level_amended.2.2 "bogus" (by decide) (by decide)⟩

/-- C8: with an empty skip-path list, no suppression patterns and no skip
predicate configured, the (total) suppression decision is false for every
request and path, so an event is always emitted. -/
theorem empty_suppression_config :
    ∀ (cfg : Config) (c : GinContext) (path : String),
      cfg.skipPath = [] → cfg.skipPathRegexps = [] → cfg.skip = none →
      shouldSkipLogging path cfg.skipPath cfg c = false ∧
      setLoggerRun cfg c ≠ [] := by
  intro cfg c path h1 h2 h3
  constructor
  · simp [shouldSkipLogging, h1, h2, h3, skipActive, matchAnyRegexp]
  · simp [setLoggerRun, shouldSkipLogging, h1, h2, h3, skipActive, matchAnyRegexp]

/-- Witness for C8: the unmodified configuration suppresses nothing. -/
theorem empty_suppression_config_witness :
    shouldSkipLogging "/health" defaultConfig.skipPath defaultConfig sampleCtx = false ∧
    setLoggerRun defaultConfig sampleCtx ≠ [] :=
  empty_suppression_config defaultConfig sampleCtx "/health" rfl rfl rfl

/-! ## Body-capture revision: sample configurations and helper lemmas -/

/-- Body capture of successful responses with a maximum length of 10,
built through the real option pipeline. -/
def cfgMax10 : BodyCapture.Config :=
  BodyCapture.setLoggerConfig
    [BodyCapture.WithLogResponseBody true, BodyCapture.WithMaxResponseBodyLen 10]

/-- Error-response capture with a maximum length of 7. -/
def cfgMax7 : BodyCapture.Config :=
  BodyCapture.setLoggerConfig
    [BodyCapture.WithLogErrorResponseBody true, BodyCapture.WithMaxResponseBodyLen 7]

lemma trimPrefixQuote_length_ge (l : List Char) :
    l.length - 1 ≤ (BodyCapture.trimPrefixQuote l).length := by
  cases l with
  | nil => simp [BodyCapture.trimPrefixQuote]
  | cons ch rest =>
    by_cases h : ch = '"' <;> simp [BodyCapture.trimPrefixQuote, h]

lemma trimSuffixQuote_length_ge (l : List Char) :
    l.length - 1 ≤ (BodyCapture.trimSuffixQuote l).length := by
  unfold BodyCapture.trimSuffixQuote
  split <;> simp

lemma trimPrefixQuote_head_eq (l : List Char) :
    BodyCapture.trimPrefixQuote l = if l.head? = some '"' then l.tail else l := by
  cases l with
  | nil => simp [BodyCapture.trimPrefixQuote]
  | cons ch rest =>
    by_cases h : ch = '"' <;> simp [BodyCapture.trimPrefixQuote, h]

/-- C5 counterexample: with successful-response capture at maximum length
10 and a captured 20-character body beginning with a double quote, the
logged field is not the first 10 characters of the captured text followed by
"...": the quote is stripped before truncation. -/
theorem response_truncation_counterexample :
    ("\"abcdefghijklmnopqrs".toList).length = 20 ∧
    BodyCapture.withResponse cfgMax10 200 = true ∧
    BodyCapture.responseField cfgMax10 200 ("\"abcdefghijklmnopqrs".toList) ≠
      some (("\"abcdefghijklmnopqrs".toList).take 10 ++ BodyCapture.ellipsisMarker) := by
  decide

/-- C5 amended: with capture enabled at maximum length 10, a captured
20-character body is logged as the first 10 characters of its quote-stripped
text followed by "..."; in general truncation keeps the first maxLen
characters of the quote-stripped text plus the marker, and is applied
exactly when the quote-stripped text's length exceeds the configured
maximum. -/
theorem response_truncation_amended :
    (∀ captured : List Char, captured.length = 20 →
      BodyCapture.responseField cfgMax10 200 captured =
        some ((BodyCapture.trimSuffixQuote
          (BodyCapture.trimPrefixQuote captured)).take 10 ++
            BodyCapture.ellipsisMarker)) ∧
    (∀ (cfg : BodyCapture.Config) (captured : List Char),
      ((BodyCapture.trimSuffixQuote (BodyCapture.trimPrefixQuote captured)).length : Int) ≤
          cfg.maxResponseBodyLen →
      BodyCapture.responseFieldText cfg captured =
        BodyCapture.trimSuffixQuote (BodyCapture.trimPrefixQuote captured)) ∧
    (∀ (cfg : BodyCapture.Config) (captured : List Char),
      cfg.maxResponseBodyLen <
          ((BodyCapture.trimSuffixQuote (BodyCapture.trimPrefixQuote captured)).length : Int) →
      BodyCapture.responseFieldText cfg captured =
        (BodyCapture.trimSuffixQuote (BodyCapture.trimPrefixQuote captured)).take
          cfg.maxResponseBodyLen.toNat ++ BodyCapture.ellipsisMarker) := by
  refine ⟨?_, ?_, ?_⟩
  · intro captured hlen
    have h1 := trimPrefixQuote_length_ge captured
    have h2 := trimSuffixQuote_length_ge (BodyCapture.trimPrefixQuote captured)
    have hw : BodyCapture.withResponse cfgMax10 200 = true := by decide
    have hmax : cfgMax10.maxResponseBodyLen = 10 := by decide
    simp only [BodyCapture.responseField, hw, if_true]
    simp only [BodyCapture.responseFieldText, hmax]
    rw [if_pos (by omega)]
    rfl
  · intro cfg captured h
    simp only [BodyCapture.responseFieldText]
    rw [if_neg (by omega)]
  · intro cfg captured h
    simp only [BodyCapture.responseFieldText]
    rw [if_pos h]

/-- Witness for C5 amended: a plain 20-character body is truncated to its
first 10 characters plus the marker; a 5-character body at maximum 10 is
logged untruncated; an 11-character body at maximum 10 is truncated. -/
theorem response_truncation_amended_witness :
    BodyCapture.responseField cfgMax10 200 ("abcdefghijklmnopqrst".toList) =
      some ((BodyCapture.trimSuffixQuote
        (BodyCapture.trimPrefixQuote ("abcdefghijklmnopqrst".toList))).take 10 ++
          BodyCapture.ellipsisMarker) ∧
    BodyCapture.responseFieldText cfgMax10 ("short".toList) =
      BodyCapture.trimSuffixQuote (BodyCapture.trimPrefixQuote ("short".toList)) ∧
    BodyCapture.responseFieldText cfgMax10 ("abcdefghijk".toList) =
      (BodyCapture.trimSuffixQuote
        (BodyCapture.trimPrefixQuote ("abcdefghijk".toList))).take
          cfgMax10.maxResponseBodyLen.toNat ++ BodyCapture.ellipsisMarker :=
  ⟨response_truncation_amended.1 ("abcdefghijklmnopqrst".toList) (by decide),
   response_truncation_amended.2.1 cfgMax10 ("short".toList) (by decide),
   response_truncation_amended.2.2 cfgMax10 ("abcdefghijk".toList) (by decide)⟩

/-- C9 spec-side rendering of the response-field computation: remove one
leading and one trailing double quote when present, then truncate exactly
when the stripped text is longer than the maximum. Written from the claim's
words for comparison with the source-derived `responseFieldText`. -/
def stripThenTruncateSpec (maxLen : Int) (text : List Char) : List Char :=
  let afterLeading := if text.head? = some '"' then text.tail else text
  let stripped :=
    if afterLeading.getLast? = some '"' then afterLeading.dropLast else afterLeading
  if (stripped.length : Int) ≤ maxLen then stripped
  else stripped.take maxLen.toNat ++ BodyCapture.ellipsisMarker

/-- C9: the implementation strips one leading and one trailing double quote
from the captured body before the maximum-length check, so the logged field
is the quote-stripped text (possibly truncated), which can differ from the
raw captured bytes, and the length compared against the maximum is the
stripped length: a 9-byte captured body whose stripped form has 7 bytes is
logged whole under a maximum of 7. -/
theorem strip_before_truncate :
    (∀ (cfg : BodyCapture.Config) (captured : List Char),
      BodyCapture.responseFieldText cfg captured =
        stripThenTruncateSpec cfg.maxResponseBodyLen captured) ∧
    BodyCapture.responseFieldText BodyCapture.defaultConfig ("\"hello\"".toList) =
      "hello".toList ∧
    "\"hello\"".toList ≠ "hello".toList ∧
    cfgMax7.maxResponseBodyLen = 7 ∧
    ("\"1234567\"".toList).length = 9 ∧
    BodyCapture.responseField cfgMax7 500 ("\"1234567\"".toList) =
      some ("1234567".toList) := by
  refine ⟨?_, by decide, by decide, by decide, by decide, by decide⟩
  intro cfg captured
  have flip : ∀ (mx : Int) (L : Nat) (A B : List Char),
      (if mx < (L : Int) then A else B) = (if (L : Int) ≤ mx then B else A) := by
    intro mx L A B
    by_cases h : mx < (L : Int)
    · rw [if_pos h, if_neg (by omega)]
    · rw [if_neg h, if_pos (by omega)]
  simp only [BodyCapture.responseFieldText, stripThenTruncateSpec, flip,
    trimPrefixQuote_head_eq, BodyCapture.trimSuffixQuote]

/-- C10: the response field is attached to the event iff the error-body
toggle is on and status >= 400, or the success-body toggle is on and status
< 400; with both toggles off no body-capturing writer is installed; and the
maximum-body-length option only takes effect for positive values, a zero or
negative value leaving the default limit of 50 unchanged. -/
theorem response_toggles :
    ∀ (cfg : BodyCapture.Config) (c : BodyCapture.BCContext) (n : Int),
      ((BodyCapture.requestEventFields cfg c).any (fun kv => kv.1 == "response") =
        ((cfg.logErrorResponseBody && decide (400 ≤ c.status)) ||
          (cfg.logResponseBody && decide (c.status < 400)))) ∧
      (cfg.logErrorResponseBody = false → cfg.logResponseBody = false →
        BodyCapture.bodyWriterInstalled cfg = false) ∧
      (0 < n → (BodyCapture.WithMaxResponseBodyLen n cfg).maxResponseBodyLen = n) ∧
      (n ≤ 0 → (BodyCapture.WithMaxResponseBodyLen n cfg).maxResponseBodyLen =
        cfg.maxResponseBodyLen) ∧
      BodyCapture.defaultConfig.maxResponseBodyLen = 50 := by
  intro cfg c n
  refine ⟨?_, ?_, ?_, ?_, rfl⟩
  · have h1 : (BodyCapture.requestEventFields cfg c).any (fun kv => kv.1 == "response") =
        BodyCapture.withResponse cfg c.status := by
      cases h : BodyCapture.withResponse cfg c.status <;>
        simp [BodyCapture.requestEventFields, h]
    rw [h1, BodyCapture.withResponse]
  · intro h1 h2
    simp [BodyCapture.bodyWriterInstalled, h1, h2]
  · intro h
    simp [BodyCapture.WithMaxResponseBodyLen, h]
  · intro h
    simp [BodyCapture.WithMaxResponseBodyLen, not_lt.mpr h]

/-- Witness for C10: a 404 response with only the error-body toggle carries
the field while a 200 response does not; the default toggles install no
writer; `WithMaxResponseBodyLen 10` sets the limit and
`WithMaxResponseBodyLen 0` and `-5` leave the default 50. -/
theorem response_toggles_witness :
    ((BodyCapture.requestEventFields cfgMax7
        { method := "POST", urlPath := "/example", clientIP := "192.0.2.1",
          userAgent := "curl/8.0", status := 404,
          capturedBody := "bad status".toList }).any
      (fun kv => kv.1 == "response") = true) ∧
    ((BodyCapture.requestEventFields cfgMax7
        { method := "GET", urlPath := "/example", clientIP := "192.0.2.1",
          userAgent := "curl/8.0", status := 200,
          capturedBody := "ok".toList }).any
      (fun kv => kv.1 == "response") = false) ∧
    BodyCapture.bodyWriterInstalled BodyCapture.defaultConfig = false ∧
    (BodyCapture.WithMaxResponseBodyLen 10 BodyCapture.defaultConfig).maxResponseBodyLen = 10 ∧
    (BodyCapture.WithMaxResponseBodyLen 0 BodyCapture.defaultConfig).maxResponseBodyLen = 50 ∧
    (BodyCapture.WithMaxResponseBodyLen (-5) BodyCapture.defaultConfig).maxResponseBodyLen = 50 := by
  have h404 := response_toggles cfgMax7
    { method := "POST", urlPath := "/example", clientIP := "192.0.2.1",
      userAgent := "curl/8.0", status := 404, capturedBody := "bad status".toList } 10
  have h200 := response_toggles cfgMax7
    { method := "GET", urlPath := "/example", clientIP := "192.0.2.1",
      userAgent := "curl/8.0", status := 200, capturedBody := "ok".toList } 0
  have hneg := response_toggles cfgMax7
    { method := "GET", urlPath := "/example", clientIP := "192.0.2.1",
      userAgent := "curl/8.0", status := 200, capturedBody := "ok".toList } (-5)
  have hdef := response_toggles BodyCapture.defaultConfig
    { method := "GET", urlPath := "/example", clientIP := "192.0.2.1",
      userAgent := "curl/8.0", status := 200, capturedBody := "ok".toList } 10
  refine ⟨?_, ?_, ?_, ?_, ?_, ?_⟩
  · rw [h404.1]; decide
  · rw [h200.1]; decide
  · exact hdef.2.1 rfl rfl
  · exact hdef.2.2.1 (by decide)
  · exact (response_toggles BodyCapture.defaultConfig
      { method := "GET", urlPath := "/example", clientIP := "192.0.2.1",
        userAgent := "curl/8.0", status := 200, capturedBody := "ok".toList }
      0).2.2.2.1 (by decide)
  · exact (response_toggles BodyCapture.defaultConfig
      { method := "GET", urlPath := "/example", clientIP := "192.0.2.1",
        userAgent := "curl/8.0", status := 200, capturedBody := "ok".toList }
      (-5)).2.2.2.1 (by decide)

end GinLogger
